import Mathlib

/-! Shallow embedding of the ConPianist score view (src/Source/ScoreComponent.cpp,
class LomseScoreComponent). The component's interactions with the lomse rendering
engine are recorded as an explicit trace of `EngineCall`s; the external world
(filesystem, piano controller, display, file chooser, the lomse doorway) is an
explicit `Env`; the component's member variables form `ScoreState`. Code paths
that dereference the presenter while it is null are modelled as `Except.error ()`. -/

namespace ConPianist

/-- Playback position as reported by the piano controller (PianoController::Position):
a 1-based measure number and a 1-based beat number. -/
@[ext]
structure Position where
  measure : Int
  beat : Int
deriving DecidableEq, Repr

/-- An A/B practice loop (PianoController::Loop) with begin and end positions.
The C++ field names begin/end clash with Lean keywords, hence the underscores. -/
@[ext]
structure Loop where
  begin_ : Position
  end_ : Position
deriving DecidableEq, Repr

/-- The piano controller state the score component reads (GetPosition, GetLoop,
GetLoopStart, GetSongName). -/
structure PianoState where
  position : Position
  loop : Loop
  loopStart : Position
  songName : String
deriving Repr

/-- The mouse modifier/button state (juce::ModifierKeys) that GetMouseFlags reads. -/
structure MouseMods where
  leftButtonDown : Bool
  rightButtonDown : Bool
  middleButtonDown : Bool
  shiftDown : Bool
  altDown : Bool
  ctrlDown : Bool
deriving DecidableEq, Fintype, Repr

/-- The fields of a juce::MouseEvent that the component's handlers read. -/
structure MouseEvent where
  mouseDownScreenX : Int
  screenY : Int
  mods : MouseMods
deriving Repr

/-- The external environment of the component: filesystem queries, the lomse
doorway (whether open_document yields a presenter, the score id of the loaded
document, ScoreAlgorithms::get_timepos_for), the piano controller, the display
scale and user zoom setting, and the file-chooser outcome. -/
structure Env where
  existsAsFile : String → Bool
  getSize : String → Int
  openDocumentOk : String → Bool
  hasScore : String → Bool
  scoreIdOf : String → Int
  getTimeposFor : Int → Int → Int
  piano : PianoState
  zoomUi : ℚ
  displayScale : ℚ
  chooserResult : Option String
  localFileOf : String → String

/-- Fragment-mark shape constants (lomse k_mark_open_rounded / k_mark_close_rounded). -/
inductive MarkType where
  | openRounded
  | closeRounded
deriving DecidableEq, Repr

/-- One call made by the component into the lomse engine (doorway, interactor,
document or fragment-mark objects), recorded as a trace element. Marks are
identified by the id the embedding assigned at their creation. -/
inductive EngineCall where
  | openDocument (filename : String)
  | newDocument
  | setRenderingBuffer
  | addEventHandler
  | defineBeat
  | setViewBackground
  | setTrackingMode
  | setTempoLineColor
  | switchTask
  | attachBuffer (w h : Int)
  | setPageSize (w h : ℚ)
  | setMargins (top left right bottom binding : Int)
  | onDocumentUpdated
  | redrawBitmap
  | removeMark (mark : Option Nat)
  | addFragmentMarkAtNoteRest (scoreId : Int) (timepos : Int) (mark : Nat)
  | markColor (mark : Nat)
  | markType (mark : Nat) (t : MarkType)
  | markXShift (mark : Nat) (v : Int)
  | moveTempoLine (scoreId : Int) (measure beat : Int)
  | moveTempoLineAndScroll (scoreId : Int) (measure beat : Int)
  | newViewport (x y : Int)
  | onMouseButtonDown (x y : Int) (flags : Nat)
  | onMouseButtonUp (x y : Int) (flags : Nat)
  | onMouseMove (x y : Int) (flags : Nat)
deriving DecidableEq, Repr

/-- The member variables of LomseScoreComponent, together with the component's
bounds (getWidth/getHeight) and the visibility of the load button. The presenter
is modelled by whether it is non-null; `nextMarkId` is a counter handing out
identities for fragment marks returned by add_fragment_mark_at_note_rest. -/
structure ScoreState where
  presenter : Bool
  m_scale : ℚ
  m_scoreId : Int
  loop : Loop
  loopStart : Position
  loopStartMark : Option Nat
  loopEndMark : Option Nat
  nextMarkId : Nat
  loadButtonVisible : Bool
  image : Option (Int × Int)
  width : Int
  height : Int
deriving DecidableEq, Repr

/-- Truncation of a rational toward zero, the semantics of the C++ cast
int(float expression) on the in-range values this component produces. -/
def truncToInt (q : ℚ) : Int :=
  q.num.tdiv (q.den : Int)

/-- Modelled from the spec: the JUCE library helper File::withFileExtension used by
LoadSong. JUCE is an external library, not part of this repository. It replaces the
extension of the path's last component (the suffix starting at that component's last
dot, if any) with the given extension, which the call sites pass with a leading dot. -/
def withFileExtension (path ext : String) : String :=
  let revChars := path.toList.reverse
  let fileRev := revChars.takeWhile (fun c => c ≠ '/')
  let dirRev := revChars.dropWhile (fun c => c ≠ '/')
  let baseRev :=
    let fromDot := fileRev.dropWhile (fun c => c ≠ '.')
    if fromDot.isEmpty then fileRev else fromDot.tail
  String.mk (dirRev.reverse ++ baseRev.reverse ++ ext.toList)

/-- ScaledUnits: LUnits(pixels) * 26.5f / m_scale. -/
def scaledUnits (pixels : Int) (scale : ℚ) : ℚ :=
  (pixels : ℚ) * (53 / 2) / scale

/-- Modelled from the spec: lomse mouse/keyboard event-flag constants (external
library header lomse_events.h). -/
def k_mouse_left : Nat := 1

/-- Modelled from the spec: lomse event-flag constant. -/
def k_mouse_right : Nat := 2

/-- Modelled from the spec: lomse event-flag constant. -/
def k_mouse_middle : Nat := 4

/-- Modelled from the spec: lomse event-flag constant. -/
def k_kbd_shift : Nat := 8

/-- Modelled from the spec: lomse event-flag constant. -/
def k_kbd_alt : Nat := 16

/-- Modelled from the spec: lomse event-flag constant. -/
def k_kbd_ctrl : Nat := 32

/-- GetMouseFlags: accumulate the flag of each pressed button/modifier by
bitwise or, starting from 0 (ScoreComponent.cpp lines 345-355). -/
def getMouseFlags (mods : MouseMods) : Nat :=
  let mouseFlags : Nat := 0
  let mouseFlags := if mods.leftButtonDown then mouseFlags ||| k_mouse_left else mouseFlags
  let mouseFlags := if mods.rightButtonDown then mouseFlags ||| k_mouse_right else mouseFlags
  let mouseFlags := if mods.middleButtonDown then mouseFlags ||| k_mouse_middle else mouseFlags
  let mouseFlags := if mods.shiftDown then mouseFlags ||| k_kbd_shift else mouseFlags
  let mouseFlags := if mods.altDown then mouseFlags ||| k_kbd_alt else mouseFlags
  let mouseFlags := if mods.ctrlDown then mouseFlags ||| k_kbd_ctrl else mouseFlags
  mouseFlags

/-- Following the claim's words: the bitwise OR of the left/right/middle-button and
shift/alt/ctrl flags for exactly the modifiers that are down. -/
def spec_mouseFlags (mods : MouseMods) : Nat :=
  (if mods.leftButtonDown then k_mouse_left else 0) |||
  (if mods.rightButtonDown then k_mouse_right else 0) |||
  (if mods.middleButtonDown then k_mouse_middle else 0) |||
  (if mods.shiftDown then k_kbd_shift else 0) |||
  (if mods.altDown then k_kbd_alt else 0) |||
  (if mods.ctrlDown then k_kbd_ctrl else 0)

/-- UpdateTempoLine (lines 377-392): with the scroll flag it calls
move_tempo_line_and_scroll_if_necessary, otherwise move_tempo_line, in both cases
with (measure - 1, beat - 1) of the controller position. It does not change state. -/
def updateTempoLine (scroll : Bool) (env : Env) (s : ScoreState) : List EngineCall :=
  let songPosition := env.piano.position
  if scroll then
    [EngineCall.moveTempoLineAndScroll s.m_scoreId (songPosition.measure - 1) (songPosition.beat - 1)]
  else
    [EngineCall.moveTempoLine s.m_scoreId (songPosition.measure - 1) (songPosition.beat - 1)]

/-- The loop-start block of UpdateABMarks (lines 411-420): when the loop-begin
measure or the loop-start measure is positive, add an open-rounded fragment mark
at the corresponding timepos; the state argument already holds the refreshed
loop/loopStart caches. -/
def abStartStep (env : Env) (s : ScoreState) : List EngineCall × ScoreState :=
  if s.loop.begin_.measure > 0 || s.loopStart.measure > 0 then
    let timepos := env.getTimeposFor
      (if s.loop.begin_.measure > 0 then s.loop.begin_.measure - 1 else s.loopStart.measure - 1)
      (if s.loop.begin_.measure > 0 then s.loop.begin_.beat - 1 else s.loopStart.beat - 1)
    let mid := s.nextMarkId
    ([EngineCall.addFragmentMarkAtNoteRest s.m_scoreId timepos mid,
      EngineCall.markColor mid,
      EngineCall.markType mid MarkType.openRounded,
      EngineCall.markXShift mid (-5)],
     { s with loopStartMark := some mid, nextMarkId := mid + 1 })
  else ([], s)

/-- The loop-end block of UpdateABMarks (lines 422-429): when the loop-end measure
is positive, add a close-rounded fragment mark at get_timepos_for(end) - 1. -/
def abEndStep (env : Env) (s : ScoreState) : List EngineCall × ScoreState :=
  if s.loop.end_.measure > 0 then
    let timepos := env.getTimeposFor (s.loop.end_.measure - 1) (s.loop.end_.beat - 1) - 1
    let mid := s.nextMarkId
    ([EngineCall.addFragmentMarkAtNoteRest s.m_scoreId timepos mid,
      EngineCall.markColor mid,
      EngineCall.markType mid MarkType.closeRounded],
     { s with loopEndMark := some mid, nextMarkId := mid + 1 })
  else ([], s)

/-- UpdateABMarks (lines 394-431): when the controller's loop or loop-start differs
from the cached copies, or recreation is forced, refresh the caches, remove both
old marks from the interactor and add the new marks per abStartStep/abEndStep;
otherwise do nothing. -/
def updateABMarks (force : Bool) (env : Env) (s : ScoreState) : List EngineCall × ScoreState :=
  let curLoop := env.piano.loop
  let curLoopStart := env.piano.loopStart
  if !(s.loop.begin_ == curLoop.begin_ && s.loop.end_ == curLoop.end_
        && s.loopStart == curLoopStart) || force then
    let s1 := { s with loop := curLoop, loopStart := curLoopStart }
    let step1 := abStartStep env s1
    let step2 := abEndStep env step1.2
    ([EngineCall.removeMark s.loopStartMark, EngineCall.removeMark s.loopEndMark]
       ++ step1.1 ++ step2.1,
     step2.2)
  else ([], s)

/-- PrepareImage (lines 193-224): allocate a new image of int(width * scale) by
int(height * scale) pixels, attach it to the rendering buffer, set the document
page size to the scaled image dimensions and fixed margins, rebuild the graphic
model, redraw, then UpdateABMarks(true) and UpdateTempoLine(false). -/
def prepareImage (env : Env) (s : ScoreState) : List EngineCall × ScoreState :=
  let w := truncToInt ((s.width : ℚ) * s.m_scale)
  let h := truncToInt ((s.height : ℚ) * s.m_scale)
  let s1 := { s with image := some (w, h) }
  let ab := updateABMarks true env s1
  ([EngineCall.attachBuffer w h,
    EngineCall.setPageSize (scaledUnits w s.m_scale) (scaledUnits h s.m_scale),
    EngineCall.setMargins 500 300 300 500 0,
    EngineCall.onDocumentUpdated,
    EngineCall.redrawBitmap]
     ++ ab.1 ++ updateTempoLine false env ab.2,
   ab.2)

/-- The interactor/document configuration done by LoadDocument after a presenter
exists (lines 152-190): rendering buffer, event handler, beat definition, view
background, tracking mode, tempo-line colour, task switch; m_scoreId is taken from
the document's score when it has one; the cached loop is reset to all zeros. -/
def loadDocumentSetup (env : Env) (filename : String) (s : ScoreState)
    (tOpen : List EngineCall) : List EngineCall × Except Unit ScoreState :=
  (tOpen ++
    [EngineCall.setRenderingBuffer, EngineCall.addEventHandler, EngineCall.defineBeat,
     EngineCall.setViewBackground, EngineCall.setTrackingMode, EngineCall.setTempoLineColor,
     EngineCall.switchTask],
   Except.ok { s with
     presenter := true
     m_scoreId := if env.hasScore filename then env.scoreIdOf filename else s.m_scoreId
     loop := ⟨⟨0, 0⟩, ⟨0, 0⟩⟩ })

/-- LoadDocument (lines 136-191): a nonempty filename is opened through the doorway,
an empty one yields a fresh empty document; should open_document yield no presenter
the immediately following get_interactor dereferences null, modelled as error. -/
def loadDocument (env : Env) (filename : String) (s : ScoreState) :
    List EngineCall × Except Unit ScoreState :=
  if filename = "" then
    loadDocumentSetup env filename s [EngineCall.newDocument]
  else if env.openDocumentOk filename then
    loadDocumentSetup env filename s [EngineCall.openDocument filename]
  else
    ([EngineCall.openDocument filename], Except.error ())

/-- LoadScore(File) (lines 455-468): null the presenter, LoadDocument the file's
full path, PrepareImage when a presenter exists, then make the load button visible
exactly when the presenter is still null, and repaint. -/
def loadScore (env : Env) (path : String) (s : ScoreState) :
    List EngineCall × Except Unit ScoreState :=
  let s1 := { s with presenter := false }
  match loadDocument env path s1 with
  | (t, Except.error e) => (t, Except.error e)
  | (t, Except.ok s2) =>
    let pi := if s2.presenter then prepareImage env s2 else ([], s2)
    (t ++ pi.1, Except.ok { pi.2 with loadButtonVisible := !(pi.2).presenter })

/-- LoadSong (lines 433-453): null the presenter; take the song name with extension
replaced by ".musicxml", falling back to ".xml" when that file does not exist; load
the chosen file through LoadScore exactly when it exists as a file with positive
size, otherwise show the load button and repaint. -/
def loadSong (env : Env) (s : ScoreState) : List EngineCall × Except Unit ScoreState :=
  let s1 := { s with presenter := false }
  let f1 := withFileExtension env.piano.songName ".musicxml"
  let file := if env.existsAsFile f1 then f1
              else withFileExtension env.piano.songName ".xml"
  if env.existsAsFile file && decide (env.getSize file > 0) then
    loadScore env file s1
  else
    ([], Except.ok { s1 with loadButtonVisible := !s1.presenter })

/-- resized (lines 248-256): store the new bounds; PrepareImage only when a
presenter exists. (The load-button bounds update is a pure GUI call, not recorded.) -/
def resized (env : Env) (newWidth newHeight : Int) (s : ScoreState) :
    List EngineCall × ScoreState :=
  let s0 := { s with width := newWidth, height := newHeight }
  if s0.presenter then prepareImage env s0 else ([], s0)

/-- What a call to paint draws. -/
inductive PaintAction where
  | drawImage (w h : Int)
  | drawFittedText (text : String)
deriving DecidableEq, Repr

/-- The static instructional message of paint's no-presenter branch (lines 266-268),
the concatenation of the two adjacent C++ string literals. -/
def instructionalText : String :=
  "To automatically load score for a song put the score-file in MusicXML format near MIDI-file. The score-file should have the same name as MIDI-file and extension .musicxml or .xml."

/-- paint (lines 258-274): with a presenter, draw the offscreen image (a null image
would fault); without one, draw the static instructional message. -/
def paint (s : ScoreState) : Except Unit PaintAction :=
  if s.presenter then
    match s.image with
    | some (w, h) => Except.ok (PaintAction.drawImage w h)
    | none => Except.error ()
  else
    Except.ok (PaintAction.drawFittedText instructionalText)

/-- A lomse notification as far as LomseEvent inspects it: an update-viewport event
carries the new viewport origin; every other event type is ignored. -/
inductive LomseEventInfo where
  | updateViewport (x y : Int)
  | other
deriving DecidableEq, Repr

/-- LomseEvent (lines 236-246): on an update-viewport event the presenter is
dereferenced without a null check (error when it is null) and the viewport is set
to x = 0, y = max(reported y - 19, 0); other events do nothing. -/
def lomseEvent (ev : LomseEventInfo) (s : ScoreState) :
    List EngineCall × Except Unit ScoreState :=
  match ev with
  | LomseEventInfo.updateViewport _ y =>
    if s.presenter then
      ([EngineCall.newViewport 0 (max (y - 19) 0)], Except.ok s)
    else
      ([], Except.error ())
  | LomseEventInfo.other => ([], Except.ok s)

/-- mouseDown (lines 298-305): return with no engine call when the presenter is
null, otherwise forward the scaled coordinates and mouse flags. -/
def mouseDown (ev : MouseEvent) (s : ScoreState) : List EngineCall :=
  if !s.presenter then [] else
  [EngineCall.onMouseButtonDown (truncToInt ((ev.mouseDownScreenX : ℚ) * s.m_scale))
    (truncToInt ((ev.screenY : ℚ) * s.m_scale)) (getMouseFlags ev.mods)]

/-- mouseUp (lines 307-314). -/
def mouseUp (ev : MouseEvent) (s : ScoreState) : List EngineCall :=
  if !s.presenter then [] else
  [EngineCall.onMouseButtonUp (truncToInt ((ev.mouseDownScreenX : ℚ) * s.m_scale))
    (truncToInt ((ev.screenY : ℚ) * s.m_scale)) (getMouseFlags ev.mods)]

/-- mouseMove (lines 316-323). -/
def mouseMove (ev : MouseEvent) (s : ScoreState) : List EngineCall :=
  if !s.presenter then [] else
  [EngineCall.onMouseMove (truncToInt ((ev.mouseDownScreenX : ℚ) * s.m_scale))
    (truncToInt ((ev.screenY : ℚ) * s.m_scale)) (getMouseFlags ev.mods)]

/-- mouseDrag (lines 325-328) simply forwards to mouseMove. -/
def mouseDrag (ev : MouseEvent) (s : ScoreState) : List EngineCall :=
  mouseMove ev s

/-- mouseWheelMove (lines 330-343): return when the presenter is null, otherwise
synthesize a left-button down/move/up drag displaced by deltaY * 256. -/
def mouseWheelMove (ev : MouseEvent) (deltaY : ℚ) (s : ScoreState) : List EngineCall :=
  if !s.presenter then [] else
  let scrollY := deltaY * 256
  [EngineCall.onMouseButtonDown (truncToInt ((ev.mouseDownScreenX : ℚ) * s.m_scale))
     (truncToInt ((ev.screenY : ℚ) * s.m_scale)) k_mouse_left,
   EngineCall.onMouseMove (truncToInt ((ev.mouseDownScreenX : ℚ) * s.m_scale))
     (truncToInt (((ev.screenY : ℚ) + scrollY) * s.m_scale)) k_mouse_left,
   EngineCall.onMouseButtonUp (truncToInt ((ev.mouseDownScreenX : ℚ) * s.m_scale))
     (truncToInt (((ev.screenY : ℚ) + scrollY) * s.m_scale)) k_mouse_left]

/-- UpdateSongState (lines 369-375): return when the presenter is null, otherwise
UpdateABMarks(false) then UpdateTempoLine(true). -/
def updateSongState (env : Env) (s : ScoreState) : List EngineCall × ScoreState :=
  if !s.presenter then ([], s) else
  let ab := updateABMarks false env s
  (ab.1 ++ updateTempoLine true env ab.2, ab.2)

/-- Work the UI thread is asked to run later via MessageManager::callAsync. -/
inductive AsyncAction where
  | loadScoreFromUrl (url : String)
deriving DecidableEq, Repr

/-- buttonClicked (lines 276-288): open the file chooser; when the user confirms a
file, dispatch LoadScore of its URL asynchronously; no engine call is made and no
load is performed inside the handler itself. -/
def buttonClicked (env : Env) : List EngineCall × List AsyncAction :=
  match env.chooserResult with
  | some url => ([], [AsyncAction.loadScoreFromUrl url])
  | none => ([], [])

/-- Running one queued asynchronous action: the dispatched callback performs
LoadScore(URL) (lines 290-296), which resolves the URL to its local file and runs
LoadScore(File). -/
def runAsyncAction (env : Env) (a : AsyncAction) (s : ScoreState) :
    List EngineCall × Except Unit ScoreState :=
  match a with
  | AsyncAction.loadScoreFromUrl url => loadScore env (env.localFileOf url) s

/-- The component state established by the constructor and BuildControls (lines
95-134): no presenter, m_scale = zoomUi * main display scale, score id 0, zero
loop caches, no marks, and a visible load button. -/
def initialState (env : Env) (width height : Int) : ScoreState :=
  { presenter := false
    m_scale := env.zoomUi * env.displayScale
    m_scoreId := 0
    loop := ⟨⟨0, 0⟩, ⟨0, 0⟩⟩
    loopStart := ⟨0, 0⟩
    loopStartMark := none
    loopEndMark := none
    nextMarkId := 0
    loadButtonVisible := true
    image := none
    width := width
    height := height }

/-- Following the spec's words: the score file located by replacing the song file's
extension first with ".musicxml" and, if no such file exists, with ".xml". -/
def spec_resolvedScoreFile (env : Env) : String :=
  let cand := withFileExtension env.piano.songName ".musicxml"
  if env.existsAsFile cand then cand else withFileExtension env.piano.songName ".xml"

/-- Following the spec's words: the score is loaded if and only if the resolved file
exists as a file and has size greater than zero. -/
def spec_loads (env : Env) : Bool :=
  env.existsAsFile (spec_resolvedScoreFile env)
    && decide (env.getSize (spec_resolvedScoreFile env) > 0)

/-- Trace predicate: a doorway open_document call. -/
def isOpenDocumentCall : EngineCall → Bool
  | EngineCall.openDocument _ => true
  | _ => false

/-- Trace predicate: the open-rounded (loop-start) mark configuration call. -/
def isStartMarkAdd : EngineCall → Bool
  | EngineCall.markType _ MarkType.openRounded => true
  | _ => false

/-- Trace predicate: the close-rounded (loop-end) mark configuration call. -/
def isEndMarkAdd : EngineCall → Bool
  | EngineCall.markType _ MarkType.closeRounded => true
  | _ => false

/-- Trace predicate: a rendering-buffer attach (bitmap reallocation). -/
def isAttachBufferCall : EngineCall → Bool
  | EngineCall.attachBuffer _ _ => true
  | _ => false

/-! Concrete fixtures used by the witnesses below. -/

/-- An environment in which no score file exists, open_document succeeds, the
controller is at position (1,1) with no loop, the display scale and zoom are 1 and
the file chooser was cancelled. -/
def envA : Env :=
  { existsAsFile := fun _ => false
    getSize := fun _ => 0
    openDocumentOk := fun _ => true
    hasScore := fun _ => false
    scoreIdOf := fun _ => 0
    getTimeposFor := fun _ _ => 0
    piano := { position := ⟨1, 1⟩, loop := ⟨⟨0, 0⟩, ⟨0, 0⟩⟩, loopStart := ⟨0, 0⟩, songName := "" }
    zoomUi := 1
    displayScale := 1
    chooserResult := none
    localFileOf := fun u => u }

/-- envA with the user zoom setting changed to 2. -/
def envB : Env := { envA with zoomUi := 2 }

/-- envA with every path existing as a 5-byte file. -/
def envLoad : Env := { envA with existsAsFile := fun _ => true, getSize := fun _ => 5 }

/-- envA with an active A/B loop from measure 2 to measure 4. -/
def envLoop : Env :=
  { envA with piano :=
    { position := ⟨1, 1⟩, loop := ⟨⟨2, 1⟩, ⟨4, 1⟩⟩, loopStart := ⟨0, 0⟩, songName := "" } }

/-- envA with the file chooser confirming a file. -/
def envChoose : Env := { envA with chooserResult := some "picked.musicxml" }

/-- The freshly constructed component state at bounds 100 by 100 under envA. -/
def sInit : ScoreState := initialState envA 100 100

/-- A state with a loaded document: presenter non-null, a 100 by 100 image. -/
def sLoaded : ScoreState := { sInit with presenter := true, image := some (100, 100) }

/-- A state with no document but a stale 7 by 7 image left from an earlier load. -/
def sStale : ScoreState := { sInit with image := some (7, 7), width := 7, height := 7 }

/-! Helper lemmas about the embedding, shared by the claim theorems. -/

theorem abStartStep_state (env : Env) (s : ScoreState) :
    ((abStartStep env s).2).presenter = s.presenter
      ∧ ((abStartStep env s).2).m_scale = s.m_scale
      ∧ ((abStartStep env s).2).image = s.image
      ∧ ((abStartStep env s).2).m_scoreId = s.m_scoreId
      ∧ ((abStartStep env s).2).loadButtonVisible = s.loadButtonVisible
      ∧ ((abStartStep env s).2).loop = s.loop
      ∧ ((abStartStep env s).2).loopStart = s.loopStart := by
  unfold abStartStep
  split <;> exact ⟨rfl, rfl, rfl, rfl, rfl, rfl, rfl⟩

theorem abEndStep_state (env : Env) (s : ScoreState) :
    ((abEndStep env s).2).presenter = s.presenter
      ∧ ((abEndStep env s).2).m_scale = s.m_scale
      ∧ ((abEndStep env s).2).image = s.image
      ∧ ((abEndStep env s).2).m_scoreId = s.m_scoreId
      ∧ ((abEndStep env s).2).loadButtonVisible = s.loadButtonVisible
      ∧ ((abEndStep env s).2).loop = s.loop
      ∧ ((abEndStep env s).2).loopStart = s.loopStart := by
  unfold abEndStep
  split <;> exact ⟨rfl, rfl, rfl, rfl, rfl, rfl, rfl⟩

theorem updateABMarks_state (force : Bool) (env : Env) (s : ScoreState) :
    ((updateABMarks force env s).2).presenter = s.presenter
      ∧ ((updateABMarks force env s).2).m_scale = s.m_scale
      ∧ ((updateABMarks force env s).2).image = s.image
      ∧ ((updateABMarks force env s).2).m_scoreId = s.m_scoreId
      ∧ ((updateABMarks force env s).2).loadButtonVisible = s.loadButtonVisible := by
  unfold updateABMarks
  dsimp only
  split
  · have h1 := abStartStep_state env
      { s with loop := env.piano.loop, loopStart := env.piano.loopStart }
    have h2 := abEndStep_state env
      (abStartStep env { s with loop := env.piano.loop, loopStart := env.piano.loopStart }).2
    exact ⟨h2.1.trans h1.1, h2.2.1.trans h1.2.1, h2.2.2.1.trans h1.2.2.1,
      h2.2.2.2.1.trans h1.2.2.2.1, h2.2.2.2.2.1.trans h1.2.2.2.2.1⟩
  · exact ⟨rfl, rfl, rfl, rfl, rfl⟩

theorem prepareImage_state (env : Env) (s : ScoreState) :
    ((prepareImage env s).2).presenter = s.presenter
      ∧ ((prepareImage env s).2).m_scale = s.m_scale
      ∧ ((prepareImage env s).2).image
          = some (truncToInt ((s.width : ℚ) * s.m_scale), truncToInt ((s.height : ℚ) * s.m_scale))
      ∧ ((prepareImage env s).2).loadButtonVisible = s.loadButtonVisible := by
  have h := updateABMarks_state true env
    { s with image := some (truncToInt ((s.width : ℚ) * s.m_scale),
                            truncToInt ((s.height : ℚ) * s.m_scale)) }
  exact ⟨h.1, h.2.1, h.2.2.1, h.2.2.2.2⟩

theorem filter_isOpen_abStartStep (env : Env) (s : ScoreState) :
    ((abStartStep env s).1).filter isOpenDocumentCall = [] := by
  unfold abStartStep
  split <;> rfl

theorem filter_isOpen_abEndStep (env : Env) (s : ScoreState) :
    ((abEndStep env s).1).filter isOpenDocumentCall = [] := by
  unfold abEndStep
  split <;> rfl

theorem filter_isOpen_updateTempoLine (scroll : Bool) (env : Env) (s : ScoreState) :
    (updateTempoLine scroll env s).filter isOpenDocumentCall = [] := by
  unfold updateTempoLine
  split <;> rfl

theorem filter_isOpen_updateABMarks (force : Bool) (env : Env) (s : ScoreState) :
    ((updateABMarks force env s).1).filter isOpenDocumentCall = [] := by
  unfold updateABMarks
  dsimp only
  split
  · rw [List.filter_append, List.filter_append, filter_isOpen_abStartStep,
      filter_isOpen_abEndStep]
    rfl
  · rfl

theorem filter_isOpen_prepareImage (env : Env) (s : ScoreState) :
    ((prepareImage env s).1).filter isOpenDocumentCall = [] := by
  unfold prepareImage
  dsimp only
  rw [List.filter_append, List.filter_append, filter_isOpen_updateABMarks,
    filter_isOpen_updateTempoLine]
  rfl

theorem filter_isOpen_loadDocument (env : Env) (path : String) (s : ScoreState)
    (h : path ≠ "") :
    ((loadDocument env path s).1).filter isOpenDocumentCall
      = [EngineCall.openDocument path] := by
  unfold loadDocument loadDocumentSetup
  rw [if_neg h]
  split <;> rfl

theorem loadDocument_ok (env : Env) (f : String) (s : ScoreState) (t : List EngineCall)
    (s' : ScoreState) (h : loadDocument env f s = (t, Except.ok s')) :
    s'.presenter = true ∧ s'.loop = ⟨⟨0, 0⟩, ⟨0, 0⟩⟩ := by
  unfold loadDocument loadDocumentSetup at h
  split at h
  · injection h with h1 h2
    injection h2 with h3
    subst h3
    exact ⟨rfl, rfl⟩
  · split at h
    · injection h with h1 h2
      injection h2 with h3
      subst h3
      exact ⟨rfl, rfl⟩
    · injection h with h1 h2
      injection h2

theorem filter_isOpen_loadScore (env : Env) (path : String) (s : ScoreState)
    (h : path ≠ "") :
    ((loadScore env path s).1).filter isOpenDocumentCall
      = [EngineCall.openDocument path] := by
  unfold loadScore
  dsimp only
  have hfd := filter_isOpen_loadDocument env path { s with presenter := false } h
  rcases hd : loadDocument env path { s with presenter := false } with ⟨t, r⟩
  rw [hd] at hfd
  dsimp only at hfd
  rcases r with e | s2
  · dsimp only
    exact hfd
  · dsimp only
    rw [List.filter_append, hfd]
    have hpi : ((if s2.presenter = true then prepareImage env s2 else ([], s2)).1).filter
        isOpenDocumentCall = [] := by
      split
      · exact filter_isOpen_prepareImage env s2
      · rfl
    rw [hpi]
    rfl

theorem countP_start_abStartStep (env : Env) (s : ScoreState) :
    (abStartStep env s).1.countP isStartMarkAdd
      = if s.loop.begin_.measure > 0 ∨ s.loopStart.measure > 0 then 1 else 0 := by
  unfold abStartStep
  by_cases h : s.loop.begin_.measure > 0 ∨ s.loopStart.measure > 0
  · have hb : (decide (s.loop.begin_.measure > 0) || decide (s.loopStart.measure > 0)) = true := by
      simp only [Bool.or_eq_true, decide_eq_true_eq]
      exact h
    rw [if_pos hb, if_pos h]
    rfl
  · have hb : ¬((decide (s.loop.begin_.measure > 0) || decide (s.loopStart.measure > 0)) = true) := by
      simp only [Bool.or_eq_true, decide_eq_true_eq]
      exact h
    rw [if_neg hb, if_neg h]
    rfl

theorem countP_end_abStartStep (env : Env) (s : ScoreState) :
    (abStartStep env s).1.countP isEndMarkAdd = 0 := by
  unfold abStartStep
  split <;> rfl

theorem countP_start_abEndStep (env : Env) (s : ScoreState) :
    (abEndStep env s).1.countP isStartMarkAdd = 0 := by
  unfold abEndStep
  split <;> rfl

theorem countP_end_abEndStep (env : Env) (s : ScoreState) :
    (abEndStep env s).1.countP isEndMarkAdd
      = if s.loop.end_.measure > 0 then 1 else 0 := by
  unfold abEndStep
  by_cases h : s.loop.end_.measure > 0
  · rw [if_pos h, if_pos h]
    rfl
  · rw [if_neg h, if_neg h]
    rfl

theorem countP_attach_abStartStep (env : Env) (s : ScoreState) :
    (abStartStep env s).1.countP isAttachBufferCall = 0 := by
  unfold abStartStep
  split <;> rfl

theorem countP_attach_abEndStep (env : Env) (s : ScoreState) :
    (abEndStep env s).1.countP isAttachBufferCall = 0 := by
  unfold abEndStep
  split <;> rfl

theorem countP_attach_updateABMarks (force : Bool) (env : Env) (s : ScoreState) :
    (updateABMarks force env s).1.countP isAttachBufferCall = 0 := by
  unfold updateABMarks
  dsimp only
  split
  · rw [List.countP_append, List.countP_append, countP_attach_abStartStep,
      countP_attach_abEndStep]
    rfl
  · rfl

theorem countP_attach_updateTempoLine (scroll : Bool) (env : Env) (s : ScoreState) :
    (updateTempoLine scroll env s).countP isAttachBufferCall = 0 := by
  unfold updateTempoLine
  split <;> rfl

theorem countP_attach_prepareImage (env : Env) (s : ScoreState) :
    (prepareImage env s).1.countP isAttachBufferCall = 1 := by
  unfold prepareImage
  dsimp only
  rw [List.countP_append, List.countP_append, countP_attach_updateABMarks,
    countP_attach_updateTempoLine]
  rfl

theorem withFileExtension_ne_empty (p ext : String) (h : ext.toList ≠ []) :
    withFileExtension p ext ≠ "" := by
  unfold withFileExtension
  intro he
  apply h
  have hd := congrArg String.data he
  simp only at hd
  rcases List.append_eq_nil.mp hd with ⟨-, h2⟩
  exact h2

theorem spec_resolvedScoreFile_ne_empty (env : Env) : spec_resolvedScoreFile env ≠ "" := by
  unfold spec_resolvedScoreFile
  dsimp only
  split
  · exact withFileExtension_ne_empty _ _ (by decide)
  · exact withFileExtension_ne_empty _ _ (by decide)

theorem loadSong_eq (env : Env) (s : ScoreState) :
    loadSong env s
      = if spec_loads env = true
          then loadScore env (spec_resolvedScoreFile env) { s with presenter := false }
          else ([], Except.ok { s with presenter := false, loadButtonVisible := true }) := by
  have hfile : (if env.existsAsFile (withFileExtension env.piano.songName ".musicxml") = true
      then withFileExtension env.piano.songName ".musicxml"
      else withFileExtension env.piano.songName ".xml") = spec_resolvedScoreFile env := rfl
  unfold loadSong
  dsimp only
  simp only [hfile]
  rfl

theorem loadScore_ok (env : Env) (path : String) (s : ScoreState) (t : List EngineCall)
    (s' : ScoreState) (h : loadScore env path s = (t, Except.ok s')) :
    s'.presenter = true ∧ s'.loadButtonVisible = false := by
  unfold loadScore at h
  dsimp only at h
  rcases hd : loadDocument env path { s with presenter := false } with ⟨t0, r0⟩
  rw [hd] at h
  rcases r0 with e | s2
  · dsimp only at h
    injection h with h1 h2
    injection h2
  · dsimp only at h
    injection h with h1 h2
    injection h2 with h3
    subst h3
    have hp := (loadDocument_ok env path _ t0 s2 hd).1
    have hpi : ((if s2.presenter = true then prepareImage env s2 else ([], s2)).2).presenter
        = true := by
      rw [if_pos hp]
      exact ((prepareImage_state env s2).1).trans hp
    refine ⟨hpi, ?_⟩
    show (!((if s2.presenter = true then prepareImage env s2 else ([], s2)).2).presenter) = false
    rw [hpi]
    rfl

/-! The claim theorems. -/

/-- C1: LoadSong locates the score file by replacing the song file's extension
first with ".musicxml" and, if no such file exists, with ".xml"; it opens the
located file for loading (LoadScore/LoadDocument) if and only if that file exists
as a file with size greater than zero, and opens no other file. -/
theorem loadSong_locates_and_loads (env : Env) (s : ScoreState) :
    ((loadSong env s).1).filter isOpenDocumentCall
      = if spec_loads env = true
          then [EngineCall.openDocument (spec_resolvedScoreFile env)] else [] := by
  rw [loadSong_eq]
  by_cases hc : spec_loads env = true
  · rw [if_pos hc, if_pos hc]
    exact filter_isOpen_loadScore env _ _ (spec_resolvedScoreFile_ne_empty env)
  · rw [if_neg hc, if_neg hc]
    rfl

/-- C8: for every playback position reported by the piano controller,
UpdateTempoLine passes exactly (measure - 1, beat - 1) to the engine; with the
scroll flag it makes the move-and-scroll call, and without it the plain move call,
with the same converted arguments, and nothing else. -/
theorem updateTempoLine_zero_based (env : Env) (s : ScoreState) :
    updateTempoLine true env s
      = [EngineCall.moveTempoLineAndScroll s.m_scoreId
          (env.piano.position.measure - 1) (env.piano.position.beat - 1)] ∧
    updateTempoLine false env s
      = [EngineCall.moveTempoLine s.m_scoreId
          (env.piano.position.measure - 1) (env.piano.position.beat - 1)] :=
  ⟨rfl, rfl⟩

/-- C9: for every update-viewport event handled with a loaded document, the
viewport position passed back to the engine is x = 0 and y = max(reported y - 19, 0),
and every viewport position passed has x = 0 and a non-negative y. -/
theorem lomseEvent_viewport_clamping (x y : Int) (s : ScoreState)
    (h : s.presenter = true) :
    (lomseEvent (LomseEventInfo.updateViewport x y) s).1
      = [EngineCall.newViewport 0 (max (y - 19) 0)] ∧
    ∀ a b : Int,
      EngineCall.newViewport a b ∈ (lomseEvent (LomseEventInfo.updateViewport x y) s).1 →
        a = 0 ∧ 0 ≤ b := by
  constructor
  · simp [lomseEvent, h]
  · intro a b hb
    simp only [lomseEvent, h, if_pos, List.mem_singleton, EngineCall.newViewport.injEq] at hb
    exact ⟨hb.1, hb.2 ▸ le_max_right _ _⟩

/-- C9 witness: the clamping theorem applied at the concrete event (3, 5) in the
loaded state; 5 - 19 clamps to 0, and the passed position satisfies x = 0, 0 ≤ y. -/
theorem lomseEvent_viewport_clamping_witness :
    (lomseEvent (LomseEventInfo.updateViewport 3 5) sLoaded).1
      = [EngineCall.newViewport 0 (max (5 - 19) 0)] ∧
    ((0 : Int) = 0 ∧ (0 : Int) ≤ 0) :=
  ⟨(lomseEvent_viewport_clamping 3 5 sLoaded rfl).1,
    (lomseEvent_viewport_clamping 3 5 sLoaded rfl).2 0 0 (by decide)⟩

/-- C10: GetMouseFlags is a pure function of the modifier state, equal to the
bitwise OR of the button/modifier flags that are down, and 0 when none is down. -/
theorem getMouseFlags_is_or_of_down_flags :
    (∀ m : MouseMods, getMouseFlags m = spec_mouseFlags m) ∧
    getMouseFlags ⟨false, false, false, false, false, false⟩ = 0 :=
  ⟨by decide, rfl⟩

/-- C7: the button-click handler performs no engine call and no load itself; a
confirmed chooser dispatches exactly one asynchronous LoadScore of the chosen URL,
a cancelled chooser dispatches nothing, and running the dispatched action later is
exactly LoadScore of the URL's local file. -/
theorem buttonClicked_defers_load :
    (∀ env : Env, (buttonClicked env).1 = []) ∧
    (∀ (env : Env) (url : String), env.chooserResult = some url →
      (buttonClicked env).2 = [AsyncAction.loadScoreFromUrl url]) ∧
    (∀ env : Env, env.chooserResult = none → (buttonClicked env).2 = []) ∧
    (∀ (env : Env) (url : String) (s : ScoreState),
      runAsyncAction env (AsyncAction.loadScoreFromUrl url) s
        = loadScore env (env.localFileOf url) s) := by
  refine ⟨?_, ?_, ?_, ?_⟩
  · intro env
    unfold buttonClicked
    cases env.chooserResult <;> rfl
  · intro env url h
    unfold buttonClicked
    rw [h]
  · intro env h
    unfold buttonClicked
    rw [h]
  · intro env url s
    rfl

/-- C7 witness: the deferral theorem applied to a confirmed chooser (envChoose)
and a cancelled chooser (envA). -/
theorem buttonClicked_defers_load_witness :
    (buttonClicked envChoose).1 = [] ∧
    envChoose.chooserResult = some "picked.musicxml" ∧
    (buttonClicked envChoose).2 = [AsyncAction.loadScoreFromUrl "picked.musicxml"] ∧
    envA.chooserResult = none ∧
    (buttonClicked envA).2 = [] ∧
    runAsyncAction envChoose (AsyncAction.loadScoreFromUrl "picked.musicxml") sInit
      = loadScore envChoose (envChoose.localFileOf "picked.musicxml") sInit :=
  ⟨buttonClicked_defers_load.1 envChoose, rfl,
    buttonClicked_defers_load.2.1 envChoose "picked.musicxml" rfl, rfl,
    buttonClicked_defers_load.2.2.1 envA rfl,
    buttonClicked_defers_load.2.2.2 envChoose "picked.musicxml" sInit⟩

/-- C4 counterexample: the claim says the scale factor is recomputed on every
resize; but a component constructed under a display/zoom product of 1 and then
resized after the zoom setting changed to 2 still has scale 1, not
zoomUi * display scale = 2 — resized never recomputes m_scale. -/
theorem scale_not_recomputed_on_resize :
    ((resized envB 50 50 (initialState envA 100 100)).2).m_scale
      ≠ envB.zoomUi * envB.displayScale := by
  have h1 : ((resized envB 50 50 (initialState envA 100 100)).2).m_scale
      = (1 : ℚ) * 1 := rfl
  have h2 : envB.zoomUi * envB.displayScale = (2 : ℚ) * 1 := rfl
  rw [h1, h2]
  norm_num

/-- C4 as amended: the scale factor is derived from the main display's scale and
the user zoom setting (scale = zoomUi * display scale), but it is computed once at
construction; a resize never changes the stored scale. -/
theorem scale_derived_at_construction (env env2 : Env) (w h nw nh : Int)
    (s : ScoreState) :
    (initialState env w h).m_scale = env.zoomUi * env.displayScale ∧
    ((resized env2 nw nh s).2).m_scale = s.m_scale := by
  refine ⟨rfl, ?_⟩
  unfold resized
  dsimp only
  split
  · exact (prepareImage_state env2 { s with width := nw, height := nh }).2.1
  · rfl

/-- C2: with no document loaded, paint draws the static instructional message;
LoadSong's not-found path makes no engine call, raises no error, leaves the
presenter null and makes the load button visible; conversely every successful
LoadScore ends with a non-null presenter and an invisible load button; and after
any completed LoadSong the button is visible exactly when the presenter is null. -/
theorem missing_score_shows_message_and_button :
    (∀ s : ScoreState, s.presenter = false →
      paint s = Except.ok (PaintAction.drawFittedText instructionalText)) ∧
    (∀ (env : Env) (s : ScoreState), spec_loads env = false →
      loadSong env s
        = ([], Except.ok { s with presenter := false, loadButtonVisible := true })) ∧
    (∀ (env : Env) (path : String) (s : ScoreState) (t : List EngineCall) (s' : ScoreState),
      loadScore env path s = (t, Except.ok s') →
        s'.presenter = true ∧ s'.loadButtonVisible = false) ∧
    (∀ (env : Env) (s : ScoreState) (t : List EngineCall) (s' : ScoreState),
      loadSong env s = (t, Except.ok s') → s'.loadButtonVisible = (!s'.presenter)) := by
  refine ⟨?_, ?_, ?_, ?_⟩
  · intro s h
    unfold paint
    rw [if_neg (by simp [h])]
  · intro env s h
    rw [loadSong_eq, if_neg (by simp [h])]
  · exact loadScore_ok
  · intro env s t s' h
    rw [loadSong_eq] at h
    by_cases hc : spec_loads env = true
    · rw [if_pos hc] at h
      obtain ⟨hp, hv⟩ := loadScore_ok env _ _ t s' h
      rw [hp, hv]
      rfl
    · rw [if_neg hc] at h
      injection h with h1 h2
      injection h2 with h3
      subst h3
      rfl

/-- The engine-call trace of the witness load below. -/
def c2t : List EngineCall := (loadScore envLoad "song.musicxml" sInit).1

/-- The component state after the witness load below. -/
def c2s : ScoreState := ((loadScore envLoad "song.musicxml" sInit).2).toOption.getD sInit

/-- The engine-call trace of the witness LoadSong below. -/
def c2t2 : List EngineCall := (loadSong envLoad sInit).1

/-- The component state after the witness LoadSong below. -/
def c2s2 : ScoreState := ((loadSong envLoad sInit).2).toOption.getD sInit

/-- C2 witness: the message/button theorem applied to the fresh state (no
presenter), to envA (no file exists, so LoadSong takes the not-found path), and
to a successful load under envLoad. -/
theorem missing_score_shows_message_and_button_witness :
    paint sInit = Except.ok (PaintAction.drawFittedText instructionalText) ∧
    loadSong envA sInit
      = ([], Except.ok { sInit with presenter := false, loadButtonVisible := true }) ∧
    (c2s.presenter = true ∧ c2s.loadButtonVisible = false) ∧
    c2s2.loadButtonVisible = (!c2s2.presenter) :=
  ⟨missing_score_shows_message_and_button.1 sInit rfl,
    missing_score_shows_message_and_button.2.1 envA sInit rfl,
    missing_score_shows_message_and_button.2.2.1 envLoad "song.musicxml" sInit c2t c2s rfl,
    missing_score_shows_message_and_button.2.2.2 envLoad sInit c2t2 c2s2 rfl⟩

/-- C3 counterexample: sInit has a null presenter, yet LomseEvent handles an
update-viewport event by accessing the presenter unconditionally — modelled as the
error of the null dereference at m_presenter->get_interactor(0) — instead of
checking it and returning without an engine call, as the claim asserts every
engine-calling path does. -/
theorem lomseEvent_unguarded_null_presenter :
    sInit.presenter = false ∧
    (lomseEvent (LomseEventInfo.updateViewport 0 100) sInit).2 = Except.error () :=
  ⟨rfl, rfl⟩

/-- C3 as amended: the mouse handlers (mouseDown, mouseUp, mouseMove, mouseDrag,
mouseWheelMove) and UpdateSongState each check that a document is loaded and return
without any engine call when the presenter is null; LomseEvent, however, performs
its presenter access on every update-viewport event without such a check, faulting
when no document is loaded. -/
theorem presenter_guard_coverage :
    (∀ (ev : MouseEvent) (s : ScoreState), s.presenter = false → mouseDown ev s = []) ∧
    (∀ (ev : MouseEvent) (s : ScoreState), s.presenter = false → mouseUp ev s = []) ∧
    (∀ (ev : MouseEvent) (s : ScoreState), s.presenter = false → mouseMove ev s = []) ∧
    (∀ (ev : MouseEvent) (s : ScoreState), s.presenter = false → mouseDrag ev s = []) ∧
    (∀ (ev : MouseEvent) (d : ℚ) (s : ScoreState), s.presenter = false →
      mouseWheelMove ev d s = []) ∧
    (∀ (env : Env) (s : ScoreState), s.presenter = false →
      updateSongState env s = ([], s)) ∧
    (∀ (x y : Int) (s : ScoreState), s.presenter = false →
      (lomseEvent (LomseEventInfo.updateViewport x y) s).2 = Except.error ()) := by
  refine ⟨?_, ?_, ?_, ?_, ?_, ?_, ?_⟩
  · intro ev s h
    simp [mouseDown, h]
  · intro ev s h
    simp [mouseUp, h]
  · intro ev s h
    simp [mouseMove, h]
  · intro ev s h
    simp [mouseDrag, mouseMove, h]
  · intro ev d s h
    simp [mouseWheelMove, h]
  · intro env s h
    simp [updateSongState, h]
  · intro x y s h
    simp [lomseEvent, h]

/-- A mouse event used by the witnesses. -/
def evC : MouseEvent := ⟨10, 20, ⟨false, false, false, false, false, false⟩⟩

/-- C3 witness: the guard-coverage theorem applied to the concrete fresh state
(null presenter) for every handler. -/
theorem presenter_guard_coverage_witness :
    mouseDown evC sInit = [] ∧
    mouseUp evC sInit = [] ∧
    mouseMove evC sInit = [] ∧
    mouseDrag evC sInit = [] ∧
    mouseWheelMove evC 1 sInit = [] ∧
    updateSongState envA sInit = ([], sInit) ∧
    (lomseEvent (LomseEventInfo.updateViewport 1 2) sInit).2 = Except.error () :=
  ⟨presenter_guard_coverage.1 evC sInit rfl,
    presenter_guard_coverage.2.1 evC sInit rfl,
    presenter_guard_coverage.2.2.1 evC sInit rfl,
    presenter_guard_coverage.2.2.2.1 evC sInit rfl,
    presenter_guard_coverage.2.2.2.2.1 evC 1 sInit rfl,
    presenter_guard_coverage.2.2.2.2.2.1 envA sInit rfl,
    presenter_guard_coverage.2.2.2.2.2.2 1 2 sInit rfl⟩

/-- C5 counterexample: resizing sStale — no document loaded but a stale 7 by 7
image from an earlier load — to 50 by 50 performs no bitmap reallocation (no
attach call) and leaves the old image in place, refuting the claim that the
offscreen bitmap is recreated on every resize. -/
theorem resized_skips_bitmap_without_document :
    (resized envA 50 50 sStale).1.countP isAttachBufferCall = 0 ∧
    ((resized envA 50 50 sStale).2).image = some (7, 7) ∧
    ((resized envA 50 50 sStale).2).image ≠ some (50, 50) :=
  ⟨rfl, rfl, by decide⟩

/-- C5 as amended: on every resize while a document is loaded, the offscreen
bitmap is recreated — exactly one buffer attach, with the image sized to the
view's pixel dimensions at the new size — while a resize without a loaded
document only stores the new bounds and allocates nothing. -/
theorem resized_recreates_bitmap_when_loaded (env : Env) (nw nh : Int)
    (s : ScoreState) :
    (s.presenter = true →
      ((resized env nw nh s).2).image
          = some (truncToInt ((nw : ℚ) * s.m_scale), truncToInt ((nh : ℚ) * s.m_scale)) ∧
      (resized env nw nh s).1.countP isAttachBufferCall = 1 ∧
      EngineCall.attachBuffer (truncToInt ((nw : ℚ) * s.m_scale))
          (truncToInt ((nh : ℚ) * s.m_scale)) ∈ (resized env nw nh s).1) ∧
    (s.presenter = false →
      resized env nw nh s = ([], { s with width := nw, height := nh })) := by
  constructor
  · intro h
    unfold resized
    dsimp only
    rw [if_pos (show ({ s with width := nw, height := nh } : ScoreState).presenter = true from h)]
    refine ⟨?_, ?_, ?_⟩
    · exact (prepareImage_state env { s with width := nw, height := nh }).2.2.1
    · exact countP_attach_prepareImage env { s with width := nw, height := nh }
    · unfold prepareImage
      dsimp only
      exact List.mem_append_left _ (List.mem_append_left _ (List.mem_cons_self _ _))
  · intro h
    unfold resized
    dsimp only
    rw [if_neg (show ¬(({ s with width := nw, height := nh } : ScoreState).presenter = true)
      from by simp [h])]

/-- C5 witness: the resize theorem applied to the loaded state sLoaded resized to
50 by 50, and to the unloaded state sStale resized to 60 by 60. -/
theorem resized_recreates_bitmap_when_loaded_witness :
    (((resized envA 50 50 sLoaded).2).image
        = some (truncToInt ((50 : ℚ) * sLoaded.m_scale), truncToInt ((50 : ℚ) * sLoaded.m_scale)) ∧
      (resized envA 50 50 sLoaded).1.countP isAttachBufferCall = 1 ∧
      EngineCall.attachBuffer (truncToInt ((50 : ℚ) * sLoaded.m_scale))
          (truncToInt ((50 : ℚ) * sLoaded.m_scale)) ∈ (resized envA 50 50 sLoaded).1) ∧
    resized envA 60 60 sStale = ([], { sStale with width := 60, height := 60 }) :=
  ⟨(resized_recreates_bitmap_when_loaded envA 50 50 sLoaded).1 rfl,
    (resized_recreates_bitmap_when_loaded envA 60 60 sStale).2 rfl⟩

theorem loops_differ_cond (force : Bool) (env : Env) (s : ScoreState)
    (h : s.loop ≠ env.piano.loop ∨ s.loopStart ≠ env.piano.loopStart ∨ force = true) :
    (!(s.loop.begin_ == env.piano.loop.begin_ && s.loop.end_ == env.piano.loop.end_
        && s.loopStart == env.piano.loopStart) || force) = true := by
  rcases Bool.eq_false_or_eq_true (s.loop.begin_ == env.piano.loop.begin_
      && s.loop.end_ == env.piano.loop.end_ && s.loopStart == env.piano.loopStart)
    with hb | hb
  · have hb2 := hb
    simp only [Bool.and_eq_true, beq_iff_eq] at hb2
    obtain ⟨⟨h1, h2⟩, h3⟩ := hb2
    rcases h with h | h | h
    · exact absurd (Loop.ext h1 h2) h
    · exact absurd h3 h
    · simp [hb, h]
  · rw [hb]
    simp

theorem updateABMarks_countP_start (force : Bool) (env : Env) (s : ScoreState) :
    (updateABMarks force env s).1.countP isStartMarkAdd
      = if (!(s.loop.begin_ == env.piano.loop.begin_ && s.loop.end_ == env.piano.loop.end_
            && s.loopStart == env.piano.loopStart) || force) = true
        then (if env.piano.loop.begin_.measure > 0 ∨ env.piano.loopStart.measure > 0
              then 1 else 0)
        else 0 := by
  unfold updateABMarks
  dsimp only
  split
  · rw [List.countP_append, List.countP_append,
      countP_start_abStartStep, countP_start_abEndStep]
    simp [isStartMarkAdd, List.countP_cons, List.countP_nil]
  · rfl

theorem updateABMarks_countP_end (force : Bool) (env : Env) (s : ScoreState) :
    (updateABMarks force env s).1.countP isEndMarkAdd
      = if (!(s.loop.begin_ == env.piano.loop.begin_ && s.loop.end_ == env.piano.loop.end_
            && s.loopStart == env.piano.loopStart) || force) = true
        then (if env.piano.loop.end_.measure > 0 then 1 else 0)
        else 0 := by
  unfold updateABMarks
  dsimp only
  split
  · rw [List.countP_append, List.countP_append,
      countP_end_abStartStep, countP_end_abEndStep]
    have hloop : ((abStartStep env
        { s with loop := env.piano.loop, loopStart := env.piano.loopStart }).2).loop
        = env.piano.loop :=
      (abStartStep_state env _).2.2.2.2.2.1
    rw [hloop]
    simp [isEndMarkAdd, List.countP_cons, List.countP_nil]
  · rfl

theorem updateABMarks_trace_recreate (force : Bool) (env : Env) (s : ScoreState)
    (hcond : (!(s.loop.begin_ == env.piano.loop.begin_ && s.loop.end_ == env.piano.loop.end_
        && s.loopStart == env.piano.loopStart) || force) = true) :
    ∃ rest, (updateABMarks force env s).1
      = EngineCall.removeMark s.loopStartMark :: EngineCall.removeMark s.loopEndMark :: rest := by
  unfold updateABMarks
  dsimp only
  rw [if_pos hcond]
  exact ⟨_, rfl⟩

/-- C6: when the loop bounds (or loop-start) reported by the controller differ
from the cached copies or recreation is forced, the marks are recreated — the two
old marks are removed first, an open-rounded start mark is added exactly when the
loop-begin or loop-start measure is positive and a close-rounded end mark exactly
when the loop-end measure is positive; with neither measure positive no start mark
is ever created, with a non-positive end measure no end mark; and LoadDocument
resets the cached loop state to all zeros. -/
theorem abMarks_lifecycle (force : Bool) (env : Env) (s : ScoreState) :
    ((s.loop ≠ env.piano.loop ∨ s.loopStart ≠ env.piano.loopStart ∨ force = true) →
      (∃ rest, (updateABMarks force env s).1
          = EngineCall.removeMark s.loopStartMark
              :: EngineCall.removeMark s.loopEndMark :: rest) ∧
      (updateABMarks force env s).1.countP isStartMarkAdd
        = (if env.piano.loop.begin_.measure > 0 ∨ env.piano.loopStart.measure > 0
           then 1 else 0) ∧
      (updateABMarks force env s).1.countP isEndMarkAdd
        = (if env.piano.loop.end_.measure > 0 then 1 else 0)) ∧
    (¬(env.piano.loop.begin_.measure > 0 ∨ env.piano.loopStart.measure > 0) →
      (updateABMarks force env s).1.countP isStartMarkAdd = 0) ∧
    (¬(env.piano.loop.end_.measure > 0) →
      (updateABMarks force env s).1.countP isEndMarkAdd = 0) ∧
    (∀ (env2 : Env) (f : String) (s2 : ScoreState) (t : List EngineCall) (s' : ScoreState),
      loadDocument env2 f s2 = (t, Except.ok s') → s'.loop = ⟨⟨0, 0⟩, ⟨0, 0⟩⟩) := by
  refine ⟨?_, ?_, ?_, ?_⟩
  · intro h
    have hcond := loops_differ_cond force env s h
    refine ⟨updateABMarks_trace_recreate force env s hcond, ?_, ?_⟩
    · rw [updateABMarks_countP_start, if_pos hcond]
    · rw [updateABMarks_countP_end, if_pos hcond]
  · intro h
    rw [updateABMarks_countP_start, if_neg h, ite_self]
  · intro h
    rw [updateABMarks_countP_end, if_neg h, ite_self]
  · intro env2 f s2 t s' h
    exact (loadDocument_ok env2 f s2 t s' h).2

/-- The engine-call trace of the witness LoadDocument below. -/
def c6t : List EngineCall := (loadDocument envA "a.xml" sInit).1

/-- The state after the witness LoadDocument below. -/
def c6s : ScoreState := ((loadDocument envA "a.xml" sInit).2).toOption.getD sInit

/-- C6 witness: the lifecycle theorem applied to the fresh state under envLoop
(cached loop all zeros, controller loop measures 2 to 4, so the caches differ and
both marks are due), to envA (no loop, so no mark is created), and to a concrete
LoadDocument run. -/
theorem abMarks_lifecycle_witness :
    ((updateABMarks false envLoop sInit).1.countP isStartMarkAdd
        = (if envLoop.piano.loop.begin_.measure > 0 ∨ envLoop.piano.loopStart.measure > 0
           then 1 else 0) ∧
      (updateABMarks false envLoop sInit).1.countP isEndMarkAdd
        = (if envLoop.piano.loop.end_.measure > 0 then 1 else 0)) ∧
    (updateABMarks false envA sInit).1.countP isStartMarkAdd = 0 ∧
    (updateABMarks false envA sInit).1.countP isEndMarkAdd = 0 ∧
    c6s.loop = ⟨⟨0, 0⟩, ⟨0, 0⟩⟩ :=
  ⟨⟨((abMarks_lifecycle false envLoop sInit).1 (Or.inl (by decide))).2.1,
    ((abMarks_lifecycle false envLoop sInit).1 (Or.inl (by decide))).2.2⟩,
    (abMarks_lifecycle false envA sInit).2.1 (by decide),
    (abMarks_lifecycle false envA sInit).2.2.1 (by decide),
    (abMarks_lifecycle false envA sInit).2.2.2 envA "a.xml" sInit c6t c6s rfl⟩

end ConPianist
